import Mathlib

/-!
Shallow embedding of the i18n translation facade of flotter/golib.

The package exists in two versions of the same component:
version 1 (src/i18n/i18n.go) exposes the free functions Initialise, G
and NG over a process-wide provider slot holding an optional MarkerAPI;
version 2 (the second source file of the package) renames the provider
interface to API, adds CurrentLocale backed by OS locale detection, and
changes the provider-less NG fallback to always return the singular form.

The process-wide slot (the Go variable holding the interface value) is
embedded as an explicit value of type Option of the provider structure:
a nil Go interface is none. Initialise is embedded as a state
transformer taking the previous slot value and the argument, returning
the new slot value, exactly as the Go assignment replaces the slot.
Each facade function takes the slot value as its first argument.

The OS locale detector (the external package go-locale together with
the x/text language tag it returns) is not part of this repository; it
is embedded abstractly: detection yields either an opaque error or a
Tag, and a Tag carries the pair its Base operation returns, namely a
Base value (with its string form) and a Confidence that the facade
discards. The concrete normalization of a textual BCP-47 tag down to
its base language subtag is modelled from the spec where a claim needs
a concrete tag.
-/

namespace I18n

/-- Version 1 provider interface, MarkerAPI in src/i18n/i18n.go: G and NG. -/
structure MarkerAPI where
  G : String → String
  NG : String → String → Int → String

/-- Version 2 provider interface, API in the second version of the package:
CurrentLocale, G and NG. CurrentLocale takes no inputs, so it is embedded
as the string it returns. -/
structure API where
  CurrentLocale : String
  G : String → String
  NG : String → String → Int → String

/-- Confidence of a base-subtag extraction, as returned by the external
x/text Tag.Base operation; the facade discards this second return value. -/
inductive Confidence where
  | no
  | low
  | high
  | exact
deriving DecidableEq, Repr

/-- Base language subtag value of the external tag library, carrying the
string its String method produces. -/
structure Base where
  str : String
deriving DecidableEq, Repr

/-- A structured locale tag as returned by the external detector
(locale.Detect); the facade only uses its Base operation, which returns
a Base together with a Confidence. -/
structure Tag where
  base : Base × Confidence
deriving DecidableEq, Repr

/-- Opaque error value of the external locale detection. -/
structure DetectError where
  msg : String
deriving DecidableEq, Repr

/-- Outcome of the external OS locale detection: an error or a tag. -/
abbrev DetectResult := Except DetectError Tag

/-- Modelled from the spec: the textual tag parsing and base-subtag
normalization performed by the external x/text library (not in src/).
The spec says the detected BCP-47 tag, such as en-ZA, is normalized
down to its base language subtag, such as en: the base is the leading
language subtag, the text before the first subtag separator. -/
def tagOf (s : String) : Tag :=
  ⟨⟨String.mk (s.data.takeWhile (fun c => !(c == '-' || c == '_')))⟩,
   Confidence.exact⟩

namespace v1

/-- The version 1 provider slot: the package-level interface variable,
nil when no provider is registered. -/
abbrev State := Option MarkerAPI

/-- Version 1 Initialise: stores the argument in the slot, replacing any
previous value. A nil interface argument is none. -/
def Initialise (_old : State) (markers : Option MarkerAPI) : State :=
  markers

/-- Version 1 G: identity when the slot is nil, otherwise delegate. -/
def G (inst : State) (msgid : String) : String :=
  match inst with
  | none => msgid
  | some p => p.G msgid

/-- Version 1 NG: with a nil slot, msgid when n equals 1 and msgidPlural
otherwise; with a provider, delegate. -/
def NG (inst : State) (msgid msgidPlural : String) (n : Int) : String :=
  match inst with
  | none => if n = 1 then msgid else msgidPlural
  | some p => p.NG msgid msgidPlural n

end v1

namespace v2

/-- The version 2 provider slot: the package-level interface variable,
nil when no provider is registered. -/
abbrev State := Option API

/-- Version 2 Initialise: stores the argument in the slot, replacing any
previous value. A nil interface argument is none. -/
def Initialise (_old : State) (api : Option API) : State :=
  api

/-- Version 2 CurrentLocale: with a nil slot, run the external detection
(passed in as its outcome); on a detection error return the fallback en,
on success return the string form of the first component of the pair the
Base operation of the tag yields, discarding the confidence. With a
provider, delegate unmodified. -/
def CurrentLocale (inst : State) (detect : DetectResult) : String :=
  match inst with
  | none =>
    match detect with
    | Except.error _ => "en"
    | Except.ok tag => tag.base.1.str
  | some p => p.CurrentLocale

/-- Version 2 G: identity when the slot is nil, otherwise delegate. -/
def G (inst : State) (msgid : String) : String :=
  match inst with
  | none => msgid
  | some p => p.G msgid

/-- Version 2 NG: with a nil slot, always msgid; with a provider,
delegate. -/
def NG (inst : State) (msgid msgidPlural : String) (n : Int) : String :=
  match inst with
  | none => msgid
  | some p => p.NG msgid msgidPlural n

end v2

/-- C1: in version 2, for every msgid s, msgidPlural p and integer n
(including 1, 0, 2 and negative values), NG with no provider registered
returns s unchanged, regardless of n and of p. -/
theorem v2_NG_fallback_identity (s p : String) (n : Int) :
    v2.NG none s p n = s :=
  rfl

/-- C2: in version 1, for every msgid s, msgidPlural p and integer n, NG
with no provider registered returns s when n equals 1 and returns p for
every other n, including 0, 2 and negative values. -/
theorem v1_NG_fallback_plural_rule (s p : String) :
    v1.NG none s p 1 = s ∧ ∀ n : Int, n ≠ 1 → v1.NG none s p n = p := by
  refine ⟨rfl, fun n hn => ?_⟩
  simp [v1.NG, hn]

/-- Witness for C2 at concrete inputs, including a zero and a negative
count. -/
theorem v1_NG_fallback_plural_rule_witness :
    v1.NG none "file" "files" 1 = "file" ∧
    v1.NG none "file" "files" 0 = "files" ∧
    v1.NG none "file" "files" (-1) = "files" :=
  ⟨(v1_NG_fallback_plural_rule "file" "files").1,
   (v1_NG_fallback_plural_rule "file" "files").2 0 (by decide),
   (v1_NG_fallback_plural_rule "file" "files").2 (-1) (by decide)⟩

/-- C3: in version 2, with no provider registered, when the OS locale
detection fails CurrentLocale returns exactly the constant string en, for
every error value; no error is surfaced. -/
theorem v2_CurrentLocale_detect_error_fallback (e : DetectError) :
    v2.CurrentLocale none (Except.error e) = "en" :=
  rfl

/-- C4: in version 2, with no provider registered, when detection succeeds
CurrentLocale returns the detected tag normalized down to its base
language subtag (the string form of the Base value of the tag); in
particular a detected tag en-ZA yields en. -/
theorem v2_CurrentLocale_detect_ok_base (t : Tag) :
    v2.CurrentLocale none (Except.ok t) = t.base.1.str ∧
    v2.CurrentLocale none (Except.ok (tagOf "en-ZA")) = "en" :=
  ⟨rfl, by decide⟩

/-- C5: in both versions, G with no provider registered returns its
argument unchanged. -/
theorem G_fallback_identity (msgid : String) :
    v1.G none msgid = msgid ∧ v2.G none msgid = msgid :=
  ⟨rfl, rfl⟩

/-- C6: in both versions, with a provider registered, NG returns exactly
the provider's NG applied to the same three inputs: the facade applies no
plural rule of its own once a provider is present. -/
theorem NG_delegates_to_provider (P1 : MarkerAPI) (P2 : API)
    (s p : String) (n : Int) :
    v1.NG (some P1) s p n = P1.NG s p n ∧
    v2.NG (some P2) s p n = P2.NG s p n :=
  ⟨rfl, rfl⟩

/-- C7: in both versions, Initialise with a nil provider always succeeds
and makes every subsequent facade call behave exactly as with no provider
registered: G returns its argument, NG follows the unregistered fallback
of its version, and CurrentLocale follows the detection path. -/
theorem Initialise_nil_behaves_unregistered (s1 : v1.State) (s2 : v2.State)
    (m sg pl : String) (n : Int) (d : DetectResult) :
    v1.G (v1.Initialise s1 none) m = m ∧
    v1.NG (v1.Initialise s1 none) sg pl n = v1.NG none sg pl n ∧
    v2.G (v2.Initialise s2 none) m = m ∧
    v2.NG (v2.Initialise s2 none) sg pl n = sg ∧
    v2.CurrentLocale (v2.Initialise s2 none) d = v2.CurrentLocale none d :=
  ⟨rfl, rfl, rfl, rfl, rfl⟩

/-- C8: in both versions, Initialise with a second provider after a first
fully replaces the first, with no error: every subsequent G, NG or
CurrentLocale call observes only the second provider's behavior. -/
theorem Initialise_last_write_wins (s1 : v1.State) (q1 r1 : MarkerAPI)
    (s2 : v2.State) (q2 r2 : API)
    (m sg pl : String) (n : Int) (d : DetectResult) :
    v1.G (v1.Initialise (v1.Initialise s1 (some q1)) (some r1)) m = r1.G m ∧
    v1.NG (v1.Initialise (v1.Initialise s1 (some q1)) (some r1)) sg pl n
      = r1.NG sg pl n ∧
    v2.G (v2.Initialise (v2.Initialise s2 (some q2)) (some r2)) m = r2.G m ∧
    v2.NG (v2.Initialise (v2.Initialise s2 (some q2)) (some r2)) sg pl n
      = r2.NG sg pl n ∧
    v2.CurrentLocale (v2.Initialise (v2.Initialise s2 (some q2)) (some r2)) d
      = r2.CurrentLocale :=
  ⟨rfl, rfl, rfl, rfl, rfl⟩

/-- C9: in version 2, with a provider registered, CurrentLocale returns
exactly the provider's own value, with no normalization or other
modification applied, whatever the detection outcome would have been. -/
theorem v2_CurrentLocale_delegates_unmodified (P : API) (d : DetectResult) :
    v2.CurrentLocale (some P) d = P.CurrentLocale :=
  rfl

/-- C10: in version 2, with no provider registered and a successful
detection, CurrentLocale discards the confidence component the Base
operation returns and yields the string form of the base value even when
the extraction failed (undetermined base with confidence no); the en
fallback is used only on a detection error, so an undetermined base is
returned as und, not replaced by en. -/
theorem v2_CurrentLocale_discards_base_confidence (b : Base) (c : Confidence) :
    v2.CurrentLocale none (Except.ok ⟨(b, c)⟩) = b.str ∧
    v2.CurrentLocale none (Except.ok ⟨(⟨"und"⟩, Confidence.no)⟩) = "und" ∧
    v2.CurrentLocale none (Except.ok ⟨(⟨"und"⟩, Confidence.no)⟩) ≠ "en" :=
  ⟨rfl, rfl, by decide⟩

end I18n
